import Mathlib

/-!
# Verification of the IthacaPlayer sample-playback engine

Shallow embedding of the parts of the IthacaPlayer repository
(`SampleLoader.cpp/h`, `SampleLibrary.cpp/h`, `VoiceManager.cpp/h`)
that the specification's claims are about, together with proofs
settling those claims.

Modelling conventions:
* C++ `uint8_t` / `uint32_t` / `int` values are modelled as `Nat` / `Int`;
  none of the modelled code paths can overflow (queue priorities are capped
  at 254, counters stay far below `2^32` in the modelled operations).
* C++ `double` sample rates are modelled as exact rationals `ℚ`;
  audio sample values are modelled as `ℚ` where a claim reads them
  (rendering, resampling) and as a provenance tag where a claim only
  cares about buffer identity, length and null-ness (the loader).
* raw pointers that may be null are modelled as `Option`; `none` is
  `nullptr`.
* C++ member functions become Lean functions taking the object state and
  returning the updated state.
-/

/-- Audio sample values (C++ `float`, modelled exactly). -/
abbrev Sample := ℚ

-- ======================== SampleLibrary data model =========================

/-- Provenance of an audio buffer produced by the sample-acquisition
pipeline (`SampleLoader`).  The loader claims only concern buffer
null-ness, lengths and rates, so the float contents (sine values, decoded
WAV frames) are tracked by provenance rather than by value. -/
inductive AudioBuffer where
  /-- buffer decoded from a WAV file, possibly resampled to a target rate -/
  | wav (note dynamicLevel : Nat) (srTag : String) (resampledTo : Option ℚ)
  /-- buffer synthesized by `generateSineWave` at the base rate -/
  | sine (note dynamicLevel : Nat)
  /-- buffer produced by `resampleIfNeeded` from another buffer -/
  | resampled (src : AudioBuffer) (targetRate : ℚ)
  deriving DecidableEq

/-- One MIDI note's container of 8 dynamic layers
(struct `SampleSegment` in `SampleLibrary.h`).  The C++ fixed arrays of
size 8 are modelled as functions; every C++ accessor guards the index
with `dynamicLevel < 8` exactly as the source does. -/
structure SampleSegment where
  /-- `dynamicLayers[i]`: owned buffer, `none` = null `unique_ptr` -/
  dynamicLayers : Nat → Option (Nat → Sample)
  layerLengthSamples : Nat → Nat
  layerAllocated : Nat → Bool
  layerIsStereo : Nat → Bool
  midiNote : Nat

/-- `SampleSegment::getLayerLength` -/
def SampleSegment.getLayerLength (s : SampleSegment) (dynamicLevel : Nat) : Nat :=
  if dynamicLevel < 8 then s.layerLengthSamples dynamicLevel else 0

/-- `SampleSegment::getLayerData` -/
def SampleSegment.getLayerData (s : SampleSegment) (dynamicLevel : Nat) :
    Option (Nat → Sample) :=
  if dynamicLevel < 8 && s.layerAllocated dynamicLevel then
    s.dynamicLayers dynamicLevel
  else none

/-- `SampleSegment::isLayerAvailable` -/
def SampleSegment.isLayerAvailable (s : SampleSegment) (dynamicLevel : Nat) : Bool :=
  decide (dynamicLevel < 8) && s.layerAllocated dynamicLevel

/-- `SampleSegment::isLayerStereo` -/
def SampleSegment.isLayerStereo (s : SampleSegment) (dynamicLevel : Nat) : Bool :=
  decide (dynamicLevel < 8) && s.layerIsStereo dynamicLevel

/-- The in-memory sample store (`class SampleLibrary`).  The C++ object
holds `std::array<SampleSegment, 128> sampleSegments_`; the array is only
indexed after `isValidNote` (note ≤ 108 < 128), so a total function model
is faithful.  The mutex only matters for concurrency, which no claim
exercises. -/
structure SampleLibrary where
  sampleSegments : Nat → SampleSegment

/-- `SampleLibrary::MIN_NOTE` -/
def SampleLibrary.MIN_NOTE : Nat := 21
/-- `SampleLibrary::MAX_NOTE` -/
def SampleLibrary.MAX_NOTE : Nat := 108
/-- `SampleLibrary::NUM_DYNAMIC_LEVELS` -/
def SampleLibrary.NUM_DYNAMIC_LEVELS : Nat := 8

/-- `SampleLibrary::isValidNote` -/
def SampleLibrary.isValidNote (midiNote : Nat) : Bool :=
  decide (SampleLibrary.MIN_NOTE ≤ midiNote) && decide (midiNote ≤ SampleLibrary.MAX_NOTE)

/-- `SampleLibrary::isValidDynamicLevel` -/
def SampleLibrary.isValidDynamicLevel (dynamicLevel : Nat) : Bool :=
  decide (dynamicLevel < SampleLibrary.NUM_DYNAMIC_LEVELS)

/-- `SampleLibrary::getSampleData` -/
def SampleLibrary.getSampleData (lib : SampleLibrary) (midiNote dynamicLevel : Nat) :
    Option (Nat → Sample) :=
  if SampleLibrary.isValidNote midiNote && SampleLibrary.isValidDynamicLevel dynamicLevel then
    (lib.sampleSegments midiNote).getLayerData dynamicLevel
  else none

/-- `SampleLibrary::getSampleLength` -/
def SampleLibrary.getSampleLength (lib : SampleLibrary) (midiNote dynamicLevel : Nat) : Nat :=
  if SampleLibrary.isValidNote midiNote && SampleLibrary.isValidDynamicLevel dynamicLevel then
    (lib.sampleSegments midiNote).getLayerLength dynamicLevel
  else 0

/-- `SampleLibrary::isNoteAvailable` -/
def SampleLibrary.isNoteAvailable (lib : SampleLibrary) (midiNote dynamicLevel : Nat) : Bool :=
  if SampleLibrary.isValidNote midiNote && SampleLibrary.isValidDynamicLevel dynamicLevel then
    (lib.sampleSegments midiNote).isLayerAvailable dynamicLevel
  else false

/-- `SampleLibrary::isSampleStereo` -/
def SampleLibrary.isSampleStereo (lib : SampleLibrary) (midiNote dynamicLevel : Nat) : Bool :=
  if SampleLibrary.isValidNote midiNote && SampleLibrary.isValidDynamicLevel dynamicLevel then
    (lib.sampleSegments midiNote).isLayerStereo dynamicLevel
  else false

/-- `SampleLoader::velocityToDynamicLevel` (also
`SampleLibrary::velocityToDynamicLevel`, which forwards to it):
`if (velocity == 0) return 0; return std::min(7, (velocity - 1) / 16);`.
All intermediate values fit in `uint8_t`, so `Nat` is exact. -/
def SampleLoader.velocityToDynamicLevel (velocity : Nat) : Nat :=
  if velocity = 0 then 0 else min 7 ((velocity - 1) / 16)

/-- `SampleLibrary::velocityToDynamicLevel` forwards to the loader's. -/
def SampleLibrary.velocityToDynamicLevel (velocity : Nat) : Nat :=
  SampleLoader.velocityToDynamicLevel velocity

-- ======================== SynthVoice state machine =========================

/-- `enum class VoiceState` from `VoiceManager.h`. -/
inductive VoiceState where
  | Inactive
  | Playing
  | Release
  deriving DecidableEq

/-- One voice of the polyphony pool (`class SynthVoice`, member
variables). -/
structure Voice where
  voiceState : VoiceState
  midiNote : Nat
  velocity : Nat
  currentDynamicLevel : Nat
  /-- `const float* sampleData_`; `none` = null pointer -/
  sampleData : Option (Nat → Sample)
  currentSampleLength : Nat
  position : Nat
  queue : Nat
  currentSampleIsStereo : Bool
  releaseCounter : Nat

/-- `SynthVoice::RELEASE_DURATION_SAMPLES` -/
def SynthVoice.RELEASE_DURATION_SAMPLES : Nat := 4800

/-- `SynthVoice::isActive` -/
def Voice.isActive (v : Voice) : Bool := decide (v.voiceState ≠ VoiceState.Inactive)
/-- `SynthVoice::isPlaying` -/
def Voice.isPlaying (v : Voice) : Bool := decide (v.voiceState = VoiceState.Playing)
/-- `SynthVoice::isInRelease` -/
def Voice.isInRelease (v : Voice) : Bool := decide (v.voiceState = VoiceState.Release)
/-- `SynthVoice::isInactive` -/
def Voice.isInactive (v : Voice) : Bool := decide (v.voiceState = VoiceState.Inactive)

/-- "the sample-data pointer is non-null" -/
def Voice.hasData (v : Voice) : Bool := v.sampleData.isSome

/-- `SynthVoice::getProgress`: `position_ / currentSampleLength_` (guarding
zero length), modelled exactly in `ℚ`.  It is only used as a stealing
tie-break. -/
def Voice.getProgress (v : Voice) : ℚ :=
  if 0 < v.currentSampleLength then
    (v.position : ℚ) / (v.currentSampleLength : ℚ)
  else 0

/-- `SynthVoice::getReleaseCounterRemaining` -/
def Voice.getReleaseCounterRemaining (v : Voice) : Nat :=
  if v.releaseCounter < SynthVoice.RELEASE_DURATION_SAMPLES then
    SynthVoice.RELEASE_DURATION_SAMPLES - v.releaseCounter
  else 0

/-- `SynthVoice::reset`: every member is set to its default value
(including `queue_ = 0`). -/
def SynthVoice.reset (_v : Voice) : Voice :=
  { voiceState := VoiceState.Inactive
    midiNote := 0
    velocity := 0
    currentDynamicLevel := 0
    sampleData := none
    currentSampleLength := 0
    position := 0
    queue := 0
    currentSampleIsStereo := false
    releaseCounter := 0 }

/-- The state of a freshly constructed `SynthVoice` (the constructor calls
`reset()`); the `VoiceManager` constructor then calls `setQueue(0)`, which
is already the reset value. -/
def SynthVoice.initial : Voice := SynthVoice.reset
  { voiceState := VoiceState.Inactive, midiNote := 0, velocity := 0,
    currentDynamicLevel := 0, sampleData := none, currentSampleLength := 0,
    position := 0, queue := 0, currentSampleIsStereo := false, releaseCounter := 0 }

/-- The `for (int offset = 1; offset < 8; ++offset)` spiral-search loop of
`SynthVoice::findBestAvailableLevel`.  `fuel` counts the remaining loop
iterations (`8 - offset`); `avail l` stands for
`library.isNoteAvailable(midiNote, l)`. -/
def SynthVoice.spiralLoop (avail : Nat → Bool) (preferredLevel : Nat) :
    Nat → Nat → Nat
  | 0, _ => 255
  | fuel + 1, offset =>
    if preferredLevel ≥ offset && avail (preferredLevel - offset) then
      preferredLevel - offset
    else if preferredLevel + offset < 8 && avail (preferredLevel + offset) then
      preferredLevel + offset
    else SynthVoice.spiralLoop avail preferredLevel fuel (offset + 1)

/-- `SynthVoice::findBestAvailableLevel`: try the preferred level, then the
expanding spiral (lower level first at each offset), returning 255 when
nothing is available. -/
def SynthVoice.findBestAvailableLevel (lib : SampleLibrary)
    (midiNote preferredLevel : Nat) : Nat :=
  if lib.isNoteAvailable midiNote preferredLevel then preferredLevel
  else SynthVoice.spiralLoop (fun l => lib.isNoteAvailable midiNote l) preferredLevel 7 1

/-- `SynthVoice::start`. -/
def SynthVoice.start (lib : SampleLibrary) (midiNote velocity : Nat) (v : Voice) :
    Voice :=
  let v0 := SynthVoice.reset v
  let v1 := { v0 with midiNote := midiNote, velocity := velocity,
                      voiceState := VoiceState.Playing }
  let preferredLevel := SampleLibrary.velocityToDynamicLevel velocity
  let bestLevel := SynthVoice.findBestAvailableLevel lib midiNote preferredLevel
  if bestLevel = 255 then { v1 with voiceState := VoiceState.Inactive }
  else
    let v2 := { v1 with currentDynamicLevel := bestLevel,
                        sampleData := lib.getSampleData midiNote bestLevel,
                        currentSampleLength := lib.getSampleLength midiNote bestLevel,
                        currentSampleIsStereo := lib.isSampleStereo midiNote bestLevel }
    if v2.sampleData.isNone || v2.currentSampleLength = 0 then
      { v2 with voiceState := VoiceState.Inactive }
    else
      { v2 with position := 0, releaseCounter := 0 }

/-- `SynthVoice::startRelease`: only effective from `Playing`. -/
def SynthVoice.startRelease (v : Voice) : Voice :=
  if v.voiceState = VoiceState.Playing then
    { v with voiceState := VoiceState.Release, releaseCounter := 0 }
  else v

/-- `SynthVoice::stop`: unconditionally sets the state to `Inactive`
(and touches nothing else — in particular the sample-data pointer is
left as it was). -/
def SynthVoice.stop (v : Voice) : Voice :=
  { v with voiceState := VoiceState.Inactive }

-- ======================== SynthVoice rendering =========================

/-- Additive write of one value into the output buffer:
`outputBuffer[idx] += val`. -/
def bufferAdd (buf : Nat → Sample) (idx : Nat) (val : Sample) : Nat → Sample :=
  fun j => if j = idx then buf j + val else buf j

/-- The per-frame mixing of `SynthVoice::render` (the
stereo/mono × stereo/mono format-conversion block), writing frame `i`. -/
def SynthVoice.renderFrame (data : Nat → Sample) (isSampleStereo : Bool)
    (position : Nat) (isStereo : Bool) (i : Nat) (buf : Nat → Sample) :
    Nat → Sample :=
  if isStereo then
    if isSampleStereo then
      bufferAdd (bufferAdd buf (i * 2) (data (position * 2)))
        (i * 2 + 1) (data (position * 2 + 1))
    else
      bufferAdd (bufferAdd buf (i * 2) (data position)) (i * 2 + 1) (data position)
  else
    if isSampleStereo then
      bufferAdd buf i ((data (position * 2) + data (position * 2 + 1)) * (1 / 2))
    else
      bufferAdd buf i (data position)

/-- The main rendering loop of `SynthVoice::render`: `fuel` counts the
remaining iterations (`numSamples - i`), `i` is the current frame index.
Each iteration checks end-of-sample, advances the release counter while in
`Release`, auto-stops the voice (break) when either termination condition
fires, and otherwise mixes one frame and advances the cursor. -/
def SynthVoice.renderLoop (data : Nat → Sample) (isStereo : Bool) :
    Nat → Nat → Voice → (Nat → Sample) → Voice × (Nat → Sample)
  | 0, _, v, buf => (v, buf)
  | fuel + 1, i, v, buf =>
    let stopEnd := decide (v.position ≥ v.currentSampleLength)
    let v := if v.voiceState = VoiceState.Release then
        { v with releaseCounter := v.releaseCounter + 1 } else v
    let stopRelease := v.voiceState = VoiceState.Release &&
        decide (v.releaseCounter ≥ SynthVoice.RELEASE_DURATION_SAMPLES)
    if stopEnd || stopRelease then
      ({ v with voiceState := VoiceState.Inactive }, buf)
    else
      SynthVoice.renderLoop data isStereo fuel (i + 1)
        { v with position := v.position + 1 }
        (SynthVoice.renderFrame data v.currentSampleIsStereo v.position isStereo i buf)

/-- `SynthVoice::render`.  The output buffer is `Option` to model the
`!outputBuffer` null check; `numSamples` is a C++ `int`, and the loop runs
`max numSamples 0` times. -/
def SynthVoice.render (v : Voice) (outputBuffer : Option (Nat → Sample))
    (numSamples : Int) (isStereo : Bool) : Voice × Option (Nat → Sample) :=
  match outputBuffer, v.sampleData with
  | some buf, some data =>
    if v.isActive && decide (v.currentSampleLength ≠ 0) then
      ((SynthVoice.renderLoop data isStereo numSamples.toNat 0 v buf).1,
       some (SynthVoice.renderLoop data isStereo numSamples.toNat 0 v buf).2)
    else (v, some buf)
  | _, _ => (v, outputBuffer)

-- ======================== VoiceManager pool model =========================

/-- `VoiceManager` state: the voice pool `voices_` (the statistics members
play no role in any claim). -/
structure VMState where
  voices : List Voice

/-- Helper of `VoiceManager::findVoicePlayingNote`: index of the first
voice (in pool iteration order) that is active and holds `midiNote`. -/
def VoiceManager.findVoicePlayingNoteGo (midiNote : Nat) : List Voice → Option Nat
  | [] => none
  | v :: rest =>
    if v.isActive && decide (v.midiNote = midiNote) then some 0
    else (VoiceManager.findVoicePlayingNoteGo midiNote rest).map (· + 1)

/-- `VoiceManager::findVoicePlayingNote` (returns a pool index instead of
a pointer). -/
def VoiceManager.findVoicePlayingNote (voices : List Voice) (midiNote : Nat) :
    Option Nat :=
  VoiceManager.findVoicePlayingNoteGo midiNote voices

/-- Loop of `VoiceManager::findBestFreeVoice`: scans forward, keeping the
inactive voice with `queue <= lowestQueue` (note the `<=`: a later tie
replaces an earlier candidate, as in the source).  The accumulator is
`(bestCandidate, lowestQueue)` with initial value `(none, 255)`. -/
def VoiceManager.findBestFreeVoiceGo : List Voice → Nat → Option Nat × Nat →
    Option Nat × Nat
  | [], _, acc => acc
  | v :: rest, i, (best, lowestQueue) =>
    VoiceManager.findBestFreeVoiceGo rest (i + 1)
      (if v.isInactive && decide (v.queue ≤ lowestQueue) then (some i, v.queue)
       else (best, lowestQueue))

/-- `VoiceManager::findBestFreeVoice`. -/
def VoiceManager.findBestFreeVoice (voices : List Voice) : Option Nat :=
  (VoiceManager.findBestFreeVoiceGo voices 0 (none, 255)).1

/-- Loop of `VoiceManager::findBestReleaseCandidate`: prefers the lowest
queue, tie-broken by the larger elapsed release time.  Accumulator
`(bestCandidate, lowestQueue, highestCounter)`, initial `(none, 255, 0)`. -/
def VoiceManager.findBestReleaseCandidateGo : List Voice → Nat →
    Option Nat × Nat × Nat → Option Nat × Nat × Nat
  | [], _, acc => acc
  | v :: rest, i, (best, lowestQueue, highestCounter) =>
    VoiceManager.findBestReleaseCandidateGo rest (i + 1)
      (if v.isInRelease then
        if decide (v.queue < lowestQueue) ||
           (decide (v.queue = lowestQueue) &&
            decide (SynthVoice.RELEASE_DURATION_SAMPLES - v.getReleaseCounterRemaining >
              highestCounter)) then
          (some i, v.queue,
           SynthVoice.RELEASE_DURATION_SAMPLES - v.getReleaseCounterRemaining)
        else (best, lowestQueue, highestCounter)
      else (best, lowestQueue, highestCounter))

/-- `VoiceManager::findBestReleaseCandidate`. -/
def VoiceManager.findBestReleaseCandidate (voices : List Voice) : Option Nat :=
  (VoiceManager.findBestReleaseCandidateGo voices 0 (none, 255, 0)).1

/-- Loop of `VoiceManager::findBestPlayingCandidate`: prefers the lowest
queue, tie-broken by the higher playback progress.  Accumulator
`(bestCandidate, lowestQueue, highestProgress)`, initial `(none, 255, 0)`. -/
def VoiceManager.findBestPlayingCandidateGo : List Voice → Nat →
    Option Nat × Nat × ℚ → Option Nat × Nat × ℚ
  | [], _, acc => acc
  | v :: rest, i, (best, lowestQueue, highestProgress) =>
    VoiceManager.findBestPlayingCandidateGo rest (i + 1)
      (if v.isPlaying then
        if decide (v.queue < lowestQueue) ||
           (decide (v.queue = lowestQueue) && decide (v.getProgress > highestProgress)) then
          (some i, v.queue, v.getProgress)
        else (best, lowestQueue, highestProgress)
      else (best, lowestQueue, highestProgress))

/-- `VoiceManager::findBestPlayingCandidate`. -/
def VoiceManager.findBestPlayingCandidate (voices : List Voice) : Option Nat :=
  (VoiceManager.findBestPlayingCandidateGo voices 0 (none, 255, 0)).1

/-- Loop of `VoiceManager::assignTopPriority`: the highest queue among all
voices other than the one at index `i` (the C++ pointer inequality
`v.get() != voice` becomes an index inequality). -/
def VoiceManager.maxQueueExceptGo (i : Nat) : List Voice → Nat → Nat → Nat
  | [], _, maxQueue => maxQueue
  | v :: rest, j, maxQueue =>
    VoiceManager.maxQueueExceptGo i rest (j + 1)
      (if decide (j ≠ i) && decide (v.queue > maxQueue) then v.queue else maxQueue)

/-- `VoiceManager::assignTopPriority`: give the voice at index `i` queue
`maxQueue + 1`, capped at 254. -/
def VoiceManager.assignTopPriority (voices : List Voice) (i : Nat) : List Voice :=
  let maxQueue := VoiceManager.maxQueueExceptGo i voices 0 0
  let newQueue := if maxQueue < 254 then maxQueue + 1 else 254
  voices.set i { (voices.getD i SynthVoice.initial) with queue := newQueue }

/-- `VoiceManager::startVoice`: the four-step allocation algorithm
(restart, free allocation, release stealing, playing stealing).  The
restart branch deliberately does not call `assignTopPriority`. -/
def VoiceManager.startVoice (lib : SampleLibrary) (midiNote velocity : Nat)
    (s : VMState) : VMState :=
  match VoiceManager.findVoicePlayingNote s.voices midiNote with
  | some i =>
    ⟨s.voices.set i
      (SynthVoice.start lib midiNote velocity (s.voices.getD i SynthVoice.initial))⟩
  | none =>
    match VoiceManager.findBestFreeVoice s.voices with
    | some i =>
      ⟨VoiceManager.assignTopPriority
        (s.voices.set i
          (SynthVoice.start lib midiNote velocity (s.voices.getD i SynthVoice.initial))) i⟩
    | none =>
      match VoiceManager.findBestReleaseCandidate s.voices with
      | some i =>
        ⟨VoiceManager.assignTopPriority
          (s.voices.set i
            (SynthVoice.start lib midiNote velocity (s.voices.getD i SynthVoice.initial))) i⟩
      | none =>
        match VoiceManager.findBestPlayingCandidate s.voices with
        | some i =>
          ⟨VoiceManager.assignTopPriority
            (s.voices.set i
              (SynthVoice.start lib midiNote velocity (s.voices.getD i SynthVoice.initial))) i⟩
        | none => s

/-- Helper of `VoiceManager::stopVoice`: index of the first voice that
`isPlaying()` and holds `midiNote`. -/
def VoiceManager.findPlayingIdx (midiNote : Nat) : List Voice → Option Nat
  | [] => none
  | v :: rest =>
    if v.isPlaying && decide (v.midiNote = midiNote) then some 0
    else (VoiceManager.findPlayingIdx midiNote rest).map (· + 1)

/-- `VoiceManager::stopVoice`: start the release counter of the first
Playing voice with this note (queue priority unchanged); no-op when no
such voice exists. -/
def VoiceManager.stopVoice (midiNote : Nat) (s : VMState) : VMState :=
  match VoiceManager.findPlayingIdx midiNote s.voices with
  | some i =>
    ⟨s.voices.set i (SynthVoice.startRelease (s.voices.getD i SynthVoice.initial))⟩
  | none => s

/-- `VoiceManager::VoiceManager`: out-of-range pool sizes are clamped to
16; each pooled voice is a freshly constructed `SynthVoice` with
`setQueue(0)`. -/
def VoiceManager.init (numVoices : Int) : VMState :=
  let n := if numVoices ≤ 0 || numVoices > 64 then 16 else numVoices.toNat
  ⟨List.replicate n SynthVoice.initial⟩

/-- The MIDI operations the rank/allocation claims quantify over
(note-on with a nonzero velocity dispatches to `startVoice`, note-off to
`stopVoice`, as in `VoiceManager::processMidiEvents`). -/
inductive MidiOp where
  | noteOn (midiNote velocity : Nat)
  | noteOff (midiNote : Nat)

/-- Apply one MIDI operation to the pool. -/
def VMState.step (lib : SampleLibrary) (s : VMState) : MidiOp → VMState
  | MidiOp.noteOn midiNote velocity => VoiceManager.startVoice lib midiNote velocity s
  | MidiOp.noteOff midiNote => VoiceManager.stopVoice midiNote s

/-- Run a sequence of MIDI operations from a freshly constructed pool. -/
def VMState.run (lib : SampleLibrary) (numVoices : Int) (ops : List MidiOp) : VMState :=
  ops.foldl (VMState.step lib) (VoiceManager.init numVoices)

-- ======================== SampleLoader pipeline model =========================

/-- The information content of a sample filename produced by
`SampleLoader::generateFilename` ("m{note:3}-vel{level}-{srTag}.wav");
the zero-padded decimal rendering is invertible for notes 21–108, so a
file on disk is identified by this triple. -/
structure Filename where
  note : Nat
  dynamicLevel : Nat
  srTag : String
  deriving DecidableEq

/-- `SampleLoader::generateFilename`: the rate suffix is "44" when the
rate is within 1.0 of 44100, else "48". -/
def SampleLoader.generateFilename (midiNote dynamicLevel : Nat) (sr : ℚ) : Filename :=
  ⟨midiNote, dynamicLevel, if |sr - 44100| < 1 then "44" else "48"⟩

/-- What the on-disk instrument directory holds for one filename. -/
inductive FileStatus where
  /-- the file does not exist (`File::exists()` is false) -/
  | absent
  /-- the file exists but no reader can be created for it
  (corrupt / unreadable) -/
  | corrupt
  /-- a decodable WAV file with the given header data -/
  | valid (lengthSamples : Nat) (sampleRate : ℚ) (numChannels : Nat)
  deriving DecidableEq

/-- The instrument directory, as a map from filename to file status. -/
def InstrumentDir := Filename → FileStatus

/-- `juce::File::exists()` for a file of the instrument directory. -/
def InstrumentDir.fileExists (dir : InstrumentDir) (f : Filename) : Bool :=
  decide (dir f ≠ FileStatus.absent)

/-- `struct FileAnalysis` (`SampleLoader.h`). -/
structure FileAnalysis where
  originalLengthSamples : Nat
  targetLengthSamples : Nat
  originalSampleRate : ℚ
  needsResampling : Bool
  memoryRequired : Nat
  isValid : Bool

/-- Output length computed by `SampleLoader::resampleIfNeeded`:
`uint32_t(sourceLength * (sampleRate_ / sourceSampleRate))`, i.e. the
floor of the exact rational product (`analyzeWavFile` computes the same
expression for `targetLengthSamples`). -/
def SampleLoader.resampleLength (sampleRate : ℚ) (sourceLength : Nat)
    (sourceSampleRate : ℚ) : Nat :=
  ⌊(sourceLength : ℚ) * (sampleRate / sourceSampleRate)⌋.toNat

/-- `SampleLoader::resampleIfNeeded`: linear interpolation onto
`resampleLength` output samples.  The returned function is the written
buffer (indices ≥ the output length keep the allocation default 0). -/
def SampleLoader.resampleIfNeeded (sampleRate : ℚ) (sourceData : Nat → Sample)
    (sourceLength : Nat) (sourceSampleRate : ℚ) : (Nat → Sample) × Nat :=
  let ratio := sampleRate / sourceSampleRate
  let outputLength := SampleLoader.resampleLength sampleRate sourceLength sourceSampleRate
  (fun i =>
    if i < outputLength then
      let sourceIndex : ℚ := (i : ℚ) / ratio
      let index1 := ⌊sourceIndex⌋.toNat
      let index2 := min (index1 + 1) (sourceLength - 1)
      let fraction := sourceIndex - (index1 : ℚ)
      sourceData index1 * (1 - fraction) + sourceData index2 * fraction
    else 0,
   outputLength)

/-- `SampleLoader::validateFileAnalysis`. -/
def SampleLoader.validateFileAnalysis (analysis : FileAnalysis) : Bool :=
  if analysis.originalLengthSamples = 0 then false
  else if analysis.originalSampleRate ≤ 0 || analysis.originalSampleRate > 192000 then false
  else if analysis.memoryRequired > 1024 * 1024 * 1024 then false
  else true

/-- `SampleLoader::analyzeWavFile`.  A `corrupt` (or absent) file yields
no reader, hence an analysis with `isValid = false`. -/
def SampleLoader.analyzeWavFile (sampleRate : ℚ) (dir : InstrumentDir)
    (file : Filename) : FileAnalysis :=
  match dir file with
  | FileStatus.valid lengthSamples fileRate numChannels =>
    let needsResampling := decide (|fileRate - sampleRate| > 1)
    let targetLengthSamples :=
      if needsResampling then SampleLoader.resampleLength sampleRate lengthSamples fileRate
      else lengthSamples
    let channels := min 2 numChannels
    { originalLengthSamples := lengthSamples
      targetLengthSamples := targetLengthSamples
      originalSampleRate := fileRate
      needsResampling := needsResampling
      memoryRequired := targetLengthSamples * channels * 4
      isValid := SampleLoader.validateFileAnalysis
        { originalLengthSamples := lengthSamples
          targetLengthSamples := targetLengthSamples
          originalSampleRate := fileRate
          needsResampling := needsResampling
          memoryRequired := targetLengthSamples * channels * 4
          isValid := false } }
  | _ =>
    { originalLengthSamples := 0, targetLengthSamples := 0, originalSampleRate := 0,
      needsResampling := false, memoryRequired := 0, isValid := false }

/-- `struct LoadedSample` (`SampleLoader.h`): audio data plus metadata.
`audioData = none` models a null `unique_ptr<float[]>`. -/
structure LoadedSample where
  audioData : Option AudioBuffer
  lengthSamples : Nat
  midiNote : Nat
  dynamicLevel : Nat
  numChannels : Nat
  isGenerated : Bool
  originalSampleRate : ℚ
  deriving DecidableEq

/-- `LoadedSample`'s default constructor. -/
def LoadedSample.mk0 : LoadedSample :=
  { audioData := none, lengthSamples := 0, midiNote := 0, dynamicLevel := 0,
    numChannels := 1, isGenerated := false, originalSampleRate := 0 }

/-- `LoadedSample`'s move constructor: the new object takes every field;
the moved-from source is left with a null buffer and the default scalar
values (`LoadedSample(LoadedSample&&)` in `SampleLoader.h`).  Returns
(new object, hollowed source). -/
def LoadedSample.moveConstruct (other : LoadedSample) : LoadedSample × LoadedSample :=
  (other,
   { audioData := none, lengthSamples := 0, midiNote := 0, dynamicLevel := 0,
     numChannels := 1, isGenerated := false, originalSampleRate := 0 })

/-- The exceptions `SampleLoader::loadWavFile` can throw
(`std::runtime_error` with distinct messages). -/
inductive LoadError where
  | invalidWav
  | cannotCreateReader
  | readError
  deriving DecidableEq

instance {ε α : Type} [DecidableEq ε] [DecidableEq α] : DecidableEq (Except ε α) :=
  fun a b =>
    match a, b with
    | Except.ok x, Except.ok y =>
      if h : x = y then isTrue (by rw [h]) else
        isFalse (fun hc => h (Except.ok.inj hc))
    | Except.error x, Except.error y =>
      if h : x = y then isTrue (by rw [h]) else
        isFalse (fun hc => h (Except.error.inj hc))
    | Except.ok _, Except.error _ => isFalse (fun hc => Except.noConfusion hc)
    | Except.error _, Except.ok _ => isFalse (fun hc => Except.noConfusion hc)

/-- `SampleLoader::loadWavFile`: analyze, throw on invalid analysis,
otherwise build the (possibly internally resampled) `LoadedSample`.  The
decoded float content is tracked as provenance. -/
def SampleLoader.loadWavFile (sampleRate : ℚ) (dir : InstrumentDir) (file : Filename)
    (midiNote dynamicLevel : Nat) : Except LoadError LoadedSample :=
  let analysis := SampleLoader.analyzeWavFile sampleRate dir file
  if !analysis.isValid then Except.error LoadError.invalidWav
  else
    match dir file with
    | FileStatus.valid _ _ numChannels =>
      Except.ok
        { audioData := some (AudioBuffer.wav midiNote dynamicLevel file.srTag
            (if analysis.needsResampling then some sampleRate else none))
          lengthSamples := analysis.targetLengthSamples
          midiNote := midiNote
          dynamicLevel := dynamicLevel
          numChannels := min 2 numChannels
          isGenerated := false
          originalSampleRate := analysis.originalSampleRate }
    | _ => Except.error LoadError.cannotCreateReader

/-- `SampleLoader::SAMPLE_SECONDS` -/
def SampleLoader.SAMPLE_SECONDS : Nat := 12

/-- `SampleLoader::generateSineWave`: a mono, generated sample of
`uint32_t(44100.0 * 12.0)` frames at the base rate 44100. -/
def SampleLoader.generateSineWave (midiNote dynamicLevel : Nat) : LoadedSample :=
  { audioData := some (AudioBuffer.sine midiNote dynamicLevel)
    lengthSamples := 44100 * SampleLoader.SAMPLE_SECONDS
    midiNote := midiNote
    dynamicLevel := dynamicLevel
    numChannels := 1
    isGenerated := true
    originalSampleRate := 44100 }

/-- `SampleLoader::loadSingleSample`: try the target-rate file, then the
alternate-rate file, then synthesize (saving along the way — persistence
does not affect the returned value).  Exceptions thrown by `loadWavFile`
propagate (there is no try/catch in this function).  In the synthesis
branch, the C++ constructs `resampledSample` by `std::move(baseSample)`,
hollowing `baseSample`, and then returns `std::move(baseSample)` when the
target rate is the base rate. -/
def SampleLoader.loadSingleSample (sampleRate : ℚ) (dir : InstrumentDir)
    (midiNote dynamicLevel : Nat) : Except LoadError LoadedSample :=
  let baseSR : ℚ := 44100
  let otherSR : ℚ := if |sampleRate - 44100| < 1 then 48000 else 44100
  let targetFilename := SampleLoader.generateFilename midiNote dynamicLevel sampleRate
  if dir.fileExists targetFilename then
    SampleLoader.loadWavFile sampleRate dir targetFilename midiNote dynamicLevel
  else
    let otherFilename := SampleLoader.generateFilename midiNote dynamicLevel otherSR
    if dir.fileExists otherFilename then
      -- loads (resampling internally to the target rate), then persists
      -- the resampled version under the target filename
      SampleLoader.loadWavFile sampleRate dir otherFilename midiNote dynamicLevel
    else
      let baseSample := SampleLoader.generateSineWave midiNote dynamicLevel
      let baseSample := { baseSample with originalSampleRate := baseSR }
      -- saveGeneratedSample(baseSample, baseFile)
      let resampledLength :=
        SampleLoader.resampleLength sampleRate baseSample.lengthSamples baseSR
      -- LoadedSample resampledSample(std::move(baseSample));
      let (resampledSample, baseSample) := LoadedSample.moveConstruct baseSample
      let resampledSample :=
        { resampledSample with
            audioData := some (AudioBuffer.resampled
              (AudioBuffer.sine midiNote dynamicLevel) sampleRate)
            lengthSamples := resampledLength
            originalSampleRate := 48000 }
      -- saveGeneratedSample(resampledSample, resampledFile)
      Except.ok (if |sampleRate - baseSR| < 1 then baseSample else resampledSample)

-- ======================== Test fixtures =========================

/-- A fully populated sample library: every layer of every segment is
allocated, mono, 1000 frames of silence.  Used to instantiate theorems at
concrete inputs. -/
def testSegment : SampleSegment :=
  { dynamicLayers := fun _ => some (fun _ => 0)
    layerLengthSamples := fun _ => 1000
    layerAllocated := fun _ => true
    layerIsStereo := fun _ => false
    midiNote := 0 }

/-- A library in which every note/layer is available (`testSegment`). -/
def testLib : SampleLibrary := ⟨fun _ => testSegment⟩

/-- An instrument directory with no files at all (forces the synthesis
branch of `loadSingleSample`). -/
def emptyDir : InstrumentDir := fun _ => FileStatus.absent

/-- An instrument directory in which the target-rate file for note 60,
layer 3 at 44100 Hz exists but is corrupt/unreadable. -/
def corruptTargetDir : InstrumentDir := fun f =>
  if f = SampleLoader.generateFilename 60 3 44100 then FileStatus.corrupt
  else FileStatus.absent

-- ======================== C7: velocity → dynamic level =========================

set_option maxRecDepth 8000 in
/-- C7: `velocityToDynamicLevel(0) = 0`; for velocities 1–127 the result
is `min(7, (velocity-1)/16)`; the map is monotone non-decreasing on
0–127, surjective onto {0,…,7}, maps 127 to 7, and
`SampleLibrary::velocityToDynamicLevel` agrees with
`SampleLoader::velocityToDynamicLevel`. -/
theorem C7_velocityToDynamicLevel :
    SampleLoader.velocityToDynamicLevel 0 = 0 ∧
    (∀ v, v < 128 → 1 ≤ v →
      SampleLoader.velocityToDynamicLevel v = min 7 ((v - 1) / 16)) ∧
    (∀ v, v < 128 → ∀ w, w < 128 → v ≤ w →
      SampleLoader.velocityToDynamicLevel v ≤ SampleLoader.velocityToDynamicLevel w) ∧
    (∀ l, l < 8 → ∃ v, v < 128 ∧ SampleLoader.velocityToDynamicLevel v = l) ∧
    SampleLoader.velocityToDynamicLevel 127 = 7 ∧
    (∀ v, v < 128 →
      SampleLibrary.velocityToDynamicLevel v = SampleLoader.velocityToDynamicLevel v) := by
  refine ⟨by decide, by decide, ?_, by decide, by decide, by decide⟩
  intro v _ w _ hvw
  simp only [SampleLoader.velocityToDynamicLevel]
  split <;> split <;> omega

/-- Witness for C7 at velocity 100. -/
theorem C7_velocityToDynamicLevel_witness :
    SampleLoader.velocityToDynamicLevel 100 = min 7 ((100 - 1) / 16) :=
  C7_velocityToDynamicLevel.2.1 100 (by decide) (by decide)

-- ======================== C10: accessors fail closed =========================

/-- C10: for any library contents, a MIDI note outside 21–108 or a
dynamic level ≥ 8 makes `getSampleData` return null, `getSampleLength`
return 0, and `isNoteAvailable`/`isSampleStereo` return false. -/
theorem C10_accessors_fail_closed (lib : SampleLibrary) (midiNote dynamicLevel : Nat)
    (h : midiNote < 21 ∨ 108 < midiNote ∨ 8 ≤ dynamicLevel) :
    lib.getSampleData midiNote dynamicLevel = none ∧
    lib.getSampleLength midiNote dynamicLevel = 0 ∧
    lib.isNoteAvailable midiNote dynamicLevel = false ∧
    lib.isSampleStereo midiNote dynamicLevel = false := by
  have hg : (SampleLibrary.isValidNote midiNote &&
      SampleLibrary.isValidDynamicLevel dynamicLevel) = false := by
    simp only [SampleLibrary.isValidNote, SampleLibrary.isValidDynamicLevel,
      SampleLibrary.MIN_NOTE, SampleLibrary.MAX_NOTE, SampleLibrary.NUM_DYNAMIC_LEVELS,
      Bool.and_eq_false_iff, decide_eq_false_iff_not, not_le, not_lt]
    omega
  refine ⟨?_, ?_, ?_, ?_⟩ <;>
    simp [SampleLibrary.getSampleData, SampleLibrary.getSampleLength,
      SampleLibrary.isNoteAvailable, SampleLibrary.isSampleStereo, hg]

/-- Witness for C10 at note 5 (below the valid range) on `testLib`. -/
theorem C10_accessors_fail_closed_witness :
    testLib.getSampleData 5 0 = none ∧
    testLib.getSampleLength 5 0 = 0 ∧
    testLib.isNoteAvailable 5 0 = false ∧
    testLib.isSampleStereo 5 0 = false :=
  C10_accessors_fail_closed testLib 5 0 (Or.inl (by decide))

-- ======================== C9: resampling round trip =========================

/-- `resampleLength` at natural-number rates is floor division. -/
theorem SampleLoader.resampleLength_natCast (L a b : Nat) :
    SampleLoader.resampleLength (a : ℚ) L (b : ℚ) = L * a / b := by
  unfold SampleLoader.resampleLength
  have hcast : (L : ℚ) * ((a : ℚ) / (b : ℚ)) = ((L * a : Nat) : ℚ) / ((b : Nat) : ℚ) := by
    push_cast
    ring
  rw [hcast, Int.floor_toNat, Nat.floor_div_nat, Nat.floor_natCast]

/-- C9: resampling a buffer of length `L` from the base rate 44100 to
48000 by linear interpolation and then resampling the result back to
44100 yields a length within one sample of `L` (each resample computes
its output length as the floor of `length * targetRate / sourceRate`). -/
theorem C9_resample_roundtrip_length (sourceData : Nat → Sample) (L : Nat) :
    ((SampleLoader.resampleIfNeeded 44100
        (SampleLoader.resampleIfNeeded 48000 sourceData L 44100).1
        (SampleLoader.resampleIfNeeded 48000 sourceData L 44100).2
        48000).2 ≤ L) ∧
    (L ≤ (SampleLoader.resampleIfNeeded 44100
        (SampleLoader.resampleIfNeeded 48000 sourceData L 44100).1
        (SampleLoader.resampleIfNeeded 48000 sourceData L 44100).2
        48000).2 + 1) := by
  have h1 : (SampleLoader.resampleIfNeeded 48000 sourceData L 44100).2 =
      L * 48000 / 44100 := by
    show SampleLoader.resampleLength (48000 : ℚ) L (44100 : ℚ) = L * 48000 / 44100
    have := SampleLoader.resampleLength_natCast L 48000 44100
    simpa using this
  have h2 : ∀ d : Nat → Sample, (SampleLoader.resampleIfNeeded 44100 d
      (L * 48000 / 44100) 48000).2 = (L * 48000 / 44100) * 44100 / 48000 := by
    intro d
    show SampleLoader.resampleLength (44100 : ℚ) (L * 48000 / 44100) (48000 : ℚ) = _
    have := SampleLoader.resampleLength_natCast (L * 48000 / 44100) 44100 48000
    simpa using this
  rw [h1, h2]
  have e1 := Nat.div_add_mod (L * 48000) 44100
  have e2 := Nat.div_add_mod (L * 48000 / 44100 * 44100) 48000
  have m1 : L * 48000 % 44100 < 44100 := Nat.mod_lt _ (by norm_num)
  have m2 : L * 48000 / 44100 * 44100 % 48000 < 48000 := Nat.mod_lt _ (by norm_num)
  omega

-- ======================== C1: loadSingleSample failure modes =========================

/-- C1 (code bug): with target rate 44100 and no files on disk, the
synthesis branch of `loadSingleSample` returns the moved-from
`baseSample` — a `LoadedSample` with a null audio buffer, zero length and
rate 0 (the C++ move at `LoadedSample resampledSample(std::move(baseSample))`
hollows `baseSample` before `return std::move(baseSample)`); and when the
target-rate file exists but is corrupt, `loadWavFile` throws and
`loadSingleSample` propagates the exception instead of falling through to
the next acquisition step. -/
theorem C1_loadSingleSample_failure_modes :
    SampleLoader.loadSingleSample 44100 emptyDir 60 3 =
      Except.ok { audioData := none, lengthSamples := 0, midiNote := 0,
                  dynamicLevel := 0, numChannels := 1, isGenerated := false,
                  originalSampleRate := 0 } ∧
    SampleLoader.loadSingleSample 44100 corruptTargetDir 60 3 =
      Except.error LoadError.invalidWav := by
  have habs : |(44100 : ℚ) - 44100| < 1 := by norm_num
  have habs2 : ¬ |(48000 : ℚ) - 44100| < 1 := by norm_num
  constructor
  · simp only [SampleLoader.loadSingleSample, SampleLoader.generateFilename,
      InstrumentDir.fileExists, emptyDir, habs, habs2, if_true, if_false,
      LoadedSample.moveConstruct]
    simp
  · simp only [SampleLoader.loadSingleSample, SampleLoader.generateFilename,
      InstrumentDir.fileExists, corruptTargetDir, habs, habs2,
      SampleLoader.loadWavFile, SampleLoader.analyzeWavFile]
    simp

-- ======================== C6: spiral search =========================

/-- Absolute offset between two dynamic levels. -/
def levelDist (a b : Nat) : Nat := max a b - min a b

/-- `findBestAvailableLevel` with the availability predicate abstracted:
`spiralSearch (fun l => lib.isNoteAvailable midiNote l) preferredLevel`
is definitionally `SynthVoice.findBestAvailableLevel lib midiNote
preferredLevel`. -/
def spiralSearch (avail : Nat → Bool) (preferredLevel : Nat) : Nat :=
  if avail preferredLevel then preferredLevel
  else SynthVoice.spiralLoop avail preferredLevel 7 1

theorem spiralLoop_congr (f g : Nat → Bool) (pref : Nat) (hp : pref < 8)
    (h : ∀ n, n < 8 → f n = g n) :
    ∀ fuel offset, SynthVoice.spiralLoop f pref fuel offset =
      SynthVoice.spiralLoop g pref fuel offset := by
  intro fuel
  induction fuel with
  | zero => intro offset; rfl
  | succ n ih =>
    intro offset
    simp only [SynthVoice.spiralLoop]
    rw [h (pref - offset) (by omega)]
    by_cases h8 : pref + offset < 8
    · rw [h (pref + offset) h8, ih]
    · have hd : decide (pref + offset < 8) = false := by simp [h8]
      rw [hd]
      simp only [Bool.false_and]
      rw [ih]

theorem spiralSearch_congr (f g : Nat → Bool) (pref : Nat) (hp : pref < 8)
    (h : ∀ n, n < 8 → f n = g n) :
    spiralSearch f pref = spiralSearch g pref := by
  unfold spiralSearch
  rw [h pref hp, spiralLoop_congr f g pref hp h]

/-- An availability pattern on the 8 dynamic levels, as a total
predicate (false outside 0–7, as `isNoteAvailable` is). -/
def availOf (f : Fin 8 → Bool) : Nat → Bool :=
  fun n => if h : n < 8 then f ⟨n, h⟩ else false

set_option maxRecDepth 100000 in
/-- Exhaustive check over all 2^8 availability patterns: the spiral
search returns 255 exactly when no level is available. -/
theorem spiralSearch_none_iff :
    ∀ f : Fin 8 → Bool, ∀ p, p < 8 →
      ((∀ l, l < 8 → availOf f l = false) ↔ spiralSearch (availOf f) p = 255) := by
  decide

set_option maxRecDepth 100000 in
/-- Exhaustive check over all 2^8 availability patterns: a non-255 result
is a valid, available level. -/
theorem spiralSearch_mem :
    ∀ f : Fin 8 → Bool, ∀ p, p < 8 → spiralSearch (availOf f) p ≠ 255 →
      spiralSearch (availOf f) p < 8 ∧ availOf f (spiralSearch (availOf f) p) = true := by
  decide

set_option maxRecDepth 100000 in
/-- Exhaustive check over all 2^8 availability patterns: the result beats
every available level on absolute offset, preferring the lower level at
equal offset. -/
theorem spiralSearch_nearest :
    ∀ f : Fin 8 → Bool, ∀ p, p < 8 → ∀ l, l < 8 → availOf f l = true →
      (levelDist (spiralSearch (availOf f) p) p < levelDist l p ∨
       (levelDist (spiralSearch (availOf f) p) p = levelDist l p ∧
        spiralSearch (availOf f) p ≤ l)) := by
  decide

/-- C6: `findBestAvailableLevel` returns the preferred layer when it is
available, otherwise the available layer with the smallest absolute
offset from the preferred layer (preferring the lower layer at equal
offset), and the sentinel 255 exactly when no layer 0–7 is available for
the note. -/
theorem C6_findBestAvailableLevel (lib : SampleLibrary)
    (midiNote preferredLevel : Nat) (hp : preferredLevel < 8) :
    (lib.isNoteAvailable midiNote preferredLevel = true →
      SynthVoice.findBestAvailableLevel lib midiNote preferredLevel = preferredLevel) ∧
    ((∀ l, l < 8 → lib.isNoteAvailable midiNote l = false) ↔
      SynthVoice.findBestAvailableLevel lib midiNote preferredLevel = 255) ∧
    (SynthVoice.findBestAvailableLevel lib midiNote preferredLevel ≠ 255 →
      SynthVoice.findBestAvailableLevel lib midiNote preferredLevel < 8 ∧
      lib.isNoteAvailable midiNote
        (SynthVoice.findBestAvailableLevel lib midiNote preferredLevel) = true ∧
      ∀ l, l < 8 → lib.isNoteAvailable midiNote l = true →
        (levelDist (SynthVoice.findBestAvailableLevel lib midiNote preferredLevel)
            preferredLevel < levelDist l preferredLevel ∨
         (levelDist (SynthVoice.findBestAvailableLevel lib midiNote preferredLevel)
            preferredLevel = levelDist l preferredLevel ∧
          SynthVoice.findBestAvailableLevel lib midiNote preferredLevel ≤ l))) := by
  have hfb : SynthVoice.findBestAvailableLevel lib midiNote preferredLevel =
      spiralSearch (fun l => lib.isNoteAvailable midiNote l) preferredLevel := rfl
  set f : Fin 8 → Bool := fun i => lib.isNoteAvailable midiNote i.val with hf
  have hag : ∀ n, n < 8 → lib.isNoteAvailable midiNote n = availOf f n := by
    intro n hn
    simp [availOf, hn, hf]
  have heq : SynthVoice.findBestAvailableLevel lib midiNote preferredLevel =
      spiralSearch (availOf f) preferredLevel := by
    rw [hfb]
    exact spiralSearch_congr _ _ _ hp hag
  refine ⟨?_, ?_, ?_⟩
  · intro hav
    rw [hfb]
    unfold spiralSearch
    simp [hav]
  · rw [heq]
    constructor
    · intro h
      exact (spiralSearch_none_iff f preferredLevel hp).1
        (fun l hl => by rw [← hag l hl]; exact h l hl)
    · intro h l hl
      rw [hag l hl]
      exact (spiralSearch_none_iff f preferredLevel hp).2 h l hl
  · intro hne
    rw [heq] at hne ⊢
    obtain ⟨hlt, hav⟩ := spiralSearch_mem f preferredLevel hp hne
    refine ⟨hlt, by rw [hag _ hlt]; exact hav, ?_⟩
    intro l hl hal
    exact spiralSearch_nearest f preferredLevel hp l hl (by rw [← hag l hl]; exact hal)

/-- Witness for C6: on `testLib` (everything available) with note 60 and
preferred level 3, the preferred layer is returned. -/
theorem C6_findBestAvailableLevel_witness :
    SynthVoice.findBestAvailableLevel testLib 60 3 = 3 :=
  (C6_findBestAvailableLevel testLib 60 3 (by decide)).1 (by decide)

-- ======================== render lemmas (for C3 and C8) =========================

/-- The render loop never touches the sample-data pointer. -/
theorem renderLoop_sampleData (data : Nat → Sample) (isStereo : Bool) :
    ∀ fuel i v buf,
      (SynthVoice.renderLoop data isStereo fuel i v buf).1.sampleData = v.sampleData := by
  intro fuel
  induction fuel with
  | zero => intro i v buf; rfl
  | succ n ih =>
    intro i v buf
    simp only [SynthVoice.renderLoop]
    split <;> split <;> first | rfl | rw [ih]

/-- The render loop never changes the layer length. -/
theorem renderLoop_length (data : Nat → Sample) (isStereo : Bool) :
    ∀ fuel i v buf,
      (SynthVoice.renderLoop data isStereo fuel i v buf).1.currentSampleLength =
        v.currentSampleLength := by
  intro fuel
  induction fuel with
  | zero => intro i v buf; rfl
  | succ n ih =>
    intro i v buf
    simp only [SynthVoice.renderLoop]
    split <;> split <;> first | rfl | rw [ih]

/-- The render loop advances the cursor only while it is strictly below
the layer length. -/
theorem renderLoop_position (data : Nat → Sample) (isStereo : Bool) :
    ∀ fuel i v buf, v.position ≤ v.currentSampleLength →
      (SynthVoice.renderLoop data isStereo fuel i v buf).1.position ≤
        v.currentSampleLength := by
  intro fuel
  induction fuel with
  | zero => intro i v buf h; exact h
  | succ n ih =>
    intro i v buf h
    simp only [SynthVoice.renderLoop]
    split <;> split
    all_goals first
      | exact h
      | (rename_i hstop
         have hlt : v.position < v.currentSampleLength := by
           simp only [Bool.or_eq_true, Bool.and_eq_true, decide_eq_true_eq, not_or] at hstop
           omega
         exact ih _ _ _ (Nat.succ_le_of_lt hlt))

/-- `renderFrame` in stereo mode writes only buffer elements `i*2` and
`i*2+1`. -/
theorem renderFrame_stereo_other (data : Nat → Sample) (sampleStereo : Bool)
    (position : Nat) (i : Nat) (buf : Nat → Sample) (j : Nat)
    (h1 : j ≠ i * 2) (h2 : j ≠ i * 2 + 1) :
    SynthVoice.renderFrame data sampleStereo position true i buf j = buf j := by
  unfold SynthVoice.renderFrame bufferAdd
  split <;> split <;> simp_all

/-- `renderFrame` in mono mode writes only buffer element `i`. -/
theorem renderFrame_mono_other (data : Nat → Sample) (sampleStereo : Bool)
    (position : Nat) (i : Nat) (buf : Nat → Sample) (j : Nat) (h : j ≠ i) :
    SynthVoice.renderFrame data sampleStereo position false i buf j = buf j := by
  unfold SynthVoice.renderFrame bufferAdd
  split <;> split <;> simp_all

/-- The render loop, started at frame `i` with `fuel` remaining frames,
leaves every stereo buffer element at index ≥ `2*(i+fuel)` untouched. -/
theorem renderLoop_stereo_frames (data : Nat → Sample) :
    ∀ fuel i v buf j, 2 * (i + fuel) ≤ j →
      (SynthVoice.renderLoop data true fuel i v buf).2 j = buf j := by
  intro fuel
  induction fuel with
  | zero => intro i v buf j hj; rfl
  | succ n ih =>
    intro i v buf j hj
    simp only [SynthVoice.renderLoop]
    split <;> split
    all_goals first
      | rfl
      | (rw [ih _ _ _ _ (by omega)]
         exact renderFrame_stereo_other _ _ _ _ _ _ (by omega) (by omega))

/-- The render loop, started at frame `i` with `fuel` remaining frames,
leaves every mono buffer element at index ≥ `i+fuel` untouched. -/
theorem renderLoop_mono_frames (data : Nat → Sample) :
    ∀ fuel i v buf j, i + fuel ≤ j →
      (SynthVoice.renderLoop data false fuel i v buf).2 j = buf j := by
  intro fuel
  induction fuel with
  | zero => intro i v buf j hj; rfl
  | succ n ih =>
    intro i v buf j hj
    simp only [SynthVoice.renderLoop]
    split <;> split
    all_goals first
      | rfl
      | (rw [ih _ _ _ _ (by omega)]
         exact renderFrame_mono_other _ _ _ _ _ _ (by omega))

/-- Unfolding `render` when the sample-data pointer is null. -/
theorem SynthVoice.render_eq_of_none (v : Voice) (ob : Option (Nat → Sample))
    (n : Int) (st : Bool) (hsd : v.sampleData = none) :
    SynthVoice.render v ob n st = (v, ob) := by
  unfold SynthVoice.render
  rw [hsd]
  cases ob <;> rfl

/-- Unfolding `render` when the sample-data pointer is set and the buffer
is non-null. -/
theorem SynthVoice.render_eq_of_some (v : Voice) (data : Nat → Sample)
    (buf : Nat → Sample) (n : Int) (st : Bool) (hsd : v.sampleData = some data) :
    SynthVoice.render v (some buf) n st =
      if v.isActive && decide (v.currentSampleLength ≠ 0) then
        ((SynthVoice.renderLoop data st n.toNat 0 v buf).1,
         some (SynthVoice.renderLoop data st n.toNat 0 v buf).2)
      else (v, some buf) := by
  unfold SynthVoice.render
  rw [hsd]

-- ======================== C8: render safety =========================

/-- C8: `render` never advances the playback cursor past the current
layer's length (given that it starts within it, as every reachable voice
state does), and writes no output-buffer element belonging to a frame
index at or beyond `frameCount` (element index `≥ 2*frameCount` for the
interleaved stereo layout, `≥ frameCount` for mono). -/
theorem C8_render_safety (v : Voice) (buf : Nat → Sample) (numSamples : Int)
    (isStereo : Bool) (hpos : v.position ≤ v.currentSampleLength) :
    (SynthVoice.render v (some buf) numSamples isStereo).1.position ≤
      v.currentSampleLength ∧
    (∀ b', (SynthVoice.render v (some buf) numSamples isStereo).2 = some b' →
      ∀ j, (isStereo = true → 2 * numSamples.toNat ≤ j → b' j = buf j) ∧
           (isStereo = false → numSamples.toNat ≤ j → b' j = buf j)) := by
  cases hsd : v.sampleData with
  | none =>
    rw [SynthVoice.render_eq_of_none v (some buf) numSamples isStereo hsd]
    refine ⟨hpos, ?_⟩
    intro b' hb' j
    cases hb'
    exact ⟨fun _ _ => rfl, fun _ _ => rfl⟩
  | some data =>
    rw [SynthVoice.render_eq_of_some v data buf numSamples isStereo hsd]
    split
    · constructor
      · exact renderLoop_position data isStereo numSamples.toNat 0 v buf hpos
      · intro b' hb' j
        have hb2 : b' = (SynthVoice.renderLoop data isStereo numSamples.toNat 0 v buf).2 := by
          simpa using hb'.symm
        subst hb2
        constructor
        · rintro rfl hj
          exact renderLoop_stereo_frames data numSamples.toNat 0 v buf j (by omega)
        · rintro rfl hj
          exact renderLoop_mono_frames data numSamples.toNat 0 v buf j (by omega)
    · refine ⟨hpos, ?_⟩
      intro b' hb' j
      cases hb'
      exact ⟨fun _ _ => rfl, fun _ _ => rfl⟩

/-- Witness for C8: an inactive fresh voice, stereo render of 4 frames. -/
theorem C8_render_safety_witness :
    (SynthVoice.render SynthVoice.initial (some (fun _ => 0)) 4 true).1.position ≤
      SynthVoice.initial.currentSampleLength ∧
    (∀ b', (SynthVoice.render SynthVoice.initial (some (fun _ => 0)) 4 true).2 = some b' →
      ∀ j, (true = true → 2 * (4 : Int).toNat ≤ j → b' j = (fun _ => (0 : Sample)) j) ∧
           (true = false → (4 : Int).toNat ≤ j → b' j = (fun _ => (0 : Sample)) j)) :=
  C8_render_safety SynthVoice.initial (fun _ => 0) 4 true (by decide)

-- ======================== C3: pointer / state invariant =========================

/-- `render` with a null output buffer is a no-op. -/
theorem SynthVoice.render_eq_of_nullBuffer (v : Voice) (n : Int) (st : Bool) :
    SynthVoice.render v none n st = (v, none) := by
  unfold SynthVoice.render
  cases v.sampleData <;> rfl

/-- C3 (counterexample): `stop()` sets the state to Inactive but leaves
the stale sample-data pointer set, so "non-null iff state ≠ Inactive"
fails: after starting a voice on an available note and stopping it, the
state is Inactive while the pointer is still non-null. -/
theorem C3_stale_pointer_counterexample :
    (SynthVoice.stop (SynthVoice.start testLib 60 100 SynthVoice.initial)).voiceState =
      VoiceState.Inactive ∧
    (SynthVoice.stop (SynthVoice.start testLib 60 100 SynthVoice.initial)).sampleData.isSome =
      true := by
  constructor <;> rfl

/-- C3 (amended): only the forward direction holds as an invariant — a
voice whose state is not Inactive always holds a non-null sample-data
pointer, and every operation (`start`, `startRelease`, `stop`, `reset`,
`render` with its automatic transitions) preserves this; the converse is
false because `stop` and `render`'s auto-stop leave the pointer set. -/
theorem C3_pointer_nonnull_of_active (lib : SampleLibrary) (v : Voice)
    (hv : v.voiceState ≠ VoiceState.Inactive → v.sampleData ≠ none)
    (midiNote velocity : Nat) (ob : Option (Nat → Sample)) (numSamples : Int)
    (isStereo : Bool) :
    ((SynthVoice.start lib midiNote velocity v).voiceState ≠ VoiceState.Inactive →
      (SynthVoice.start lib midiNote velocity v).sampleData ≠ none) ∧
    ((SynthVoice.startRelease v).voiceState ≠ VoiceState.Inactive →
      (SynthVoice.startRelease v).sampleData ≠ none) ∧
    ((SynthVoice.stop v).voiceState ≠ VoiceState.Inactive →
      (SynthVoice.stop v).sampleData ≠ none) ∧
    ((SynthVoice.reset v).voiceState ≠ VoiceState.Inactive →
      (SynthVoice.reset v).sampleData ≠ none) ∧
    ((SynthVoice.render v ob numSamples isStereo).1.voiceState ≠ VoiceState.Inactive →
      (SynthVoice.render v ob numSamples isStereo).1.sampleData ≠ none) := by
  refine ⟨?_, ?_, ?_, ?_, ?_⟩
  · unfold SynthVoice.start
    dsimp only
    split
    · intro h; exact absurd rfl h
    · split
      · intro h; exact absurd rfl h
      · rename_i hval
        intro _ hc
        dsimp only at hc
        rw [hc] at hval
        simp at hval
  · unfold SynthVoice.startRelease
    split
    · rename_i hpl
      intro _
      exact hv (by rw [hpl]; simp)
    · exact fun h => hv h
  · intro h; exact absurd rfl h
  · intro h; exact absurd rfl h
  · cases hob : ob with
    | none =>
      rw [SynthVoice.render_eq_of_nullBuffer]
      exact fun h => hv h
    | some buf =>
      cases hsd : v.sampleData with
      | none =>
        rw [SynthVoice.render_eq_of_none v (some buf) numSamples isStereo hsd]
        exact fun h => hv h
      | some data =>
        rw [SynthVoice.render_eq_of_some v data buf numSamples isStereo hsd]
        split
        · intro _
          rw [renderLoop_sampleData data isStereo numSamples.toNat 0 v buf, hsd]
          simp
        · exact fun h => hv h

/-- Witness for C3 (amended) on a fresh inactive voice. -/
theorem C3_pointer_nonnull_of_active_witness :
    ((SynthVoice.start testLib 60 100 SynthVoice.initial).voiceState ≠ VoiceState.Inactive →
      (SynthVoice.start testLib 60 100 SynthVoice.initial).sampleData ≠ none) ∧
    ((SynthVoice.startRelease SynthVoice.initial).voiceState ≠ VoiceState.Inactive →
      (SynthVoice.startRelease SynthVoice.initial).sampleData ≠ none) ∧
    ((SynthVoice.stop SynthVoice.initial).voiceState ≠ VoiceState.Inactive →
      (SynthVoice.stop SynthVoice.initial).sampleData ≠ none) ∧
    ((SynthVoice.reset SynthVoice.initial).voiceState ≠ VoiceState.Inactive →
      (SynthVoice.reset SynthVoice.initial).sampleData ≠ none) ∧
    ((SynthVoice.render SynthVoice.initial (some (fun _ => 0)) 4 true).1.voiceState ≠
        VoiceState.Inactive →
      (SynthVoice.render SynthVoice.initial (some (fun _ => 0)) 4 true).1.sampleData ≠
        none) :=
  C3_pointer_nonnull_of_active testLib SynthVoice.initial
    (fun h => absurd rfl h) 60 100 (some (fun _ => 0)) 4 true

-- ======================== pool list helpers =========================

theorem getD_set_self (vs : List Voice) (k : Nat) (w : Voice) (h : k < vs.length) :
    (vs.set k w).getD k SynthVoice.initial = w := by
  rw [List.getD_eq_getElem _ _ (by simpa using h), List.getElem_set_self]

theorem getD_set_ne (vs : List Voice) (k j : Nat) (w : Voice) (h : j ≠ k) :
    (vs.set k w).getD j SynthVoice.initial = vs.getD j SynthVoice.initial := by
  by_cases hj : j < vs.length
  · rw [List.getD_eq_getElem _ _ (by simpa using hj), List.getD_eq_getElem _ _ hj,
      List.getElem_set_ne (Ne.symm h)]
  · rw [List.getD_eq_default _ _ (by simpa using Nat.le_of_not_lt hj),
      List.getD_eq_default _ _ (Nat.le_of_not_lt hj)]

theorem getD_mem (vs : List Voice) (j : Nat) (h : j < vs.length) :
    vs.getD j SynthVoice.initial ∈ vs := by
  rw [List.getD_eq_getElem _ _ h]
  exact List.getElem_mem h

-- ======================== SynthVoice field lemmas =========================

/-- `start` always leaves the queue at the reset value 0 (the C++ `start`
begins with `reset()`, which zeroes `queue_`, and never writes it again). -/
theorem SynthVoice.start_queue (lib : SampleLibrary) (midiNote velocity : Nat) (v : Voice) :
    (SynthVoice.start lib midiNote velocity v).queue = 0 := by
  unfold SynthVoice.start
  dsimp only
  split
  · rfl
  · split <;> rfl

/-- `start` stores the requested note. -/
theorem SynthVoice.start_midiNote (lib : SampleLibrary) (midiNote velocity : Nat) (v : Voice) :
    (SynthVoice.start lib midiNote velocity v).midiNote = midiNote := by
  unfold SynthVoice.start
  dsimp only
  split
  · rfl
  · split <;> rfl

/-- `start` stores the requested velocity. -/
theorem SynthVoice.start_velocity (lib : SampleLibrary) (midiNote velocity : Nat) (v : Voice) :
    (SynthVoice.start lib midiNote velocity v).velocity = velocity := by
  unfold SynthVoice.start
  dsimp only
  split
  · rfl
  · split <;> rfl

/-- `startRelease` does not change the queue. -/
theorem SynthVoice.startRelease_queue (v : Voice) :
    (SynthVoice.startRelease v).queue = v.queue := by
  unfold SynthVoice.startRelease
  split <;> rfl

/-- `startRelease` does not change the note. -/
theorem SynthVoice.startRelease_midiNote (v : Voice) :
    (SynthVoice.startRelease v).midiNote = v.midiNote := by
  unfold SynthVoice.startRelease
  split <;> rfl

/-- `startRelease` does not change whether the voice is active
(Playing becomes Release; other states are untouched). -/
theorem SynthVoice.startRelease_isActive (v : Voice) :
    (SynthVoice.startRelease v).isActive = v.isActive := by
  unfold SynthVoice.startRelease
  split
  · rename_i h
    simp [Voice.isActive, h]
  · rfl

-- ======================== C2: rank bound =========================

/-- The queue freshly assigned by `assignTopPriority` is at most 254. -/
theorem assignTopPriority_new_queue_le (vs : List Voice) (i : Nat) :
    ∀ v ∈ VoiceManager.assignTopPriority vs i, v.queue ≤ 254 ∨ v ∈ vs := by
  intro v hv
  unfold VoiceManager.assignTopPriority at hv
  rcases List.mem_or_eq_of_mem_set hv with h1 | h2
  · exact Or.inr h1
  · left
    rw [h2]
    dsimp only
    split <;> omega

/-- One `startVoice` call keeps every queue at most 254. -/
theorem startVoice_queue_le (lib : SampleLibrary) (midiNote velocity : Nat)
    (s : VMState) (h : ∀ v ∈ s.voices, v.queue ≤ 254) :
    ∀ v ∈ (VoiceManager.startVoice lib midiNote velocity s).voices, v.queue ≤ 254 := by
  have hset : ∀ i, ∀ v ∈ s.voices.set i
      (SynthVoice.start lib midiNote velocity (s.voices.getD i SynthVoice.initial)),
      v.queue ≤ 254 := by
    intro i v hv
    rcases List.mem_or_eq_of_mem_set hv with h1 | h2
    · exact h v h1
    · rw [h2, SynthVoice.start_queue]
      omega
  have hassign : ∀ i, ∀ v ∈ VoiceManager.assignTopPriority
      (s.voices.set i
        (SynthVoice.start lib midiNote velocity (s.voices.getD i SynthVoice.initial))) i,
      v.queue ≤ 254 := by
    intro i v hv
    rcases assignTopPriority_new_queue_le _ _ v hv with h1 | h2
    · exact h1
    · exact hset i v h2
  unfold VoiceManager.startVoice
  cases VoiceManager.findVoicePlayingNote s.voices midiNote with
  | some i => exact hset i
  | none =>
    cases VoiceManager.findBestFreeVoice s.voices with
    | some i => exact hassign i
    | none =>
      cases VoiceManager.findBestReleaseCandidate s.voices with
      | some i => exact hassign i
      | none =>
        cases VoiceManager.findBestPlayingCandidate s.voices with
        | some i => exact hassign i
        | none => exact h

/-- One `stopVoice` call keeps every queue at most 254. -/
theorem stopVoice_queue_le (midiNote : Nat) (s : VMState)
    (h : ∀ v ∈ s.voices, v.queue ≤ 254) :
    ∀ v ∈ (VoiceManager.stopVoice midiNote s).voices, v.queue ≤ 254 := by
  unfold VoiceManager.stopVoice
  cases hi : VoiceManager.findPlayingIdx midiNote s.voices with
  | some i =>
    intro v hv
    rcases List.mem_or_eq_of_mem_set hv with h1 | h2
    · exact h v h1
    · rw [h2, SynthVoice.startRelease_queue]
      by_cases hlt : i < s.voices.length
      · exact h _ (getD_mem _ _ hlt)
      · rw [List.getD_eq_default _ _ (Nat.le_of_not_lt hlt)]
        exact Nat.zero_le _
  | none => exact h

/-- Any MIDI operation keeps every queue at most 254. -/
theorem step_queue_le (lib : SampleLibrary) (s : VMState)
    (h : ∀ v ∈ s.voices, v.queue ≤ 254) (op : MidiOp) :
    ∀ v ∈ (VMState.step lib s op).voices, v.queue ≤ 254 := by
  cases op with
  | noteOn midiNote velocity => exact startVoice_queue_le lib midiNote velocity s h
  | noteOff midiNote => exact stopVoice_queue_le midiNote s h

theorem foldl_queue_le (lib : SampleLibrary) (ops : List MidiOp) :
    ∀ s : VMState, (∀ v ∈ s.voices, v.queue ≤ 254) →
      ∀ v ∈ (ops.foldl (VMState.step lib) s).voices, v.queue ≤ 254 := by
  induction ops with
  | nil => intro s h; exact h
  | cons op rest ih =>
    intro s h
    exact ih _ (step_queue_le lib s h op)

/-- C2 (counterexample): immediately after construction — the empty
sequence of note-ons/note-offs — a 2-voice pool holds the rank multiset
{0, 0}, not {0, 1}: the constructor gives every voice rank 0 and no
permutation is maintained. -/
theorem C2_rank_multiset_counterexample :
    (((VoiceManager.init 2).voices.map (fun v => v.queue) : List Nat) : Multiset Nat) ≠
      Multiset.range 2 := by
  decide

/-- C2 (amended): the ranks do not form a permutation of {0,…,N-1}.
What does hold: every voice of a freshly constructed pool has rank 0,
and after any sequence of note-on/note-off operations every rank lies in
{0,…,254} (a newly allocated or stolen voice gets one more than the
maximum of the others, capped at 254; duplicates are ubiquitous). -/
theorem C2_rank_bound (lib : SampleLibrary) (numVoices : Int) (ops : List MidiOp) :
    (∀ v ∈ (VoiceManager.init numVoices).voices, v.queue = 0) ∧
    (∀ v ∈ (VMState.run lib numVoices ops).voices, v.queue ≤ 254) := by
  constructor
  · intro v hv
    have : v = SynthVoice.initial := List.eq_of_mem_replicate hv
    rw [this]
    rfl
  · refine foldl_queue_le lib ops _ ?_
    intro v hv
    have : v = SynthVoice.initial := List.eq_of_mem_replicate hv
    rw [this]
    exact Nat.zero_le _

/-- Witness for C2 (amended) on a 2-voice pool after one note-on. -/
theorem C2_rank_bound_witness :
    (∀ v ∈ (VoiceManager.init 2).voices, v.queue = 0) ∧
    (∀ v ∈ (VMState.run testLib 2 [MidiOp.noteOn 60 100]).voices, v.queue ≤ 254) :=
  C2_rank_bound testLib 2 [MidiOp.noteOn 60 100]

-- ======================== finder lemmas =========================

/-- A successful `findVoicePlayingNote` scan returns an in-range index of
an active voice holding the requested note. -/
theorem findVoicePlayingNoteGo_spec (midiNote : Nat) :
    ∀ l i, VoiceManager.findVoicePlayingNoteGo midiNote l = some i →
      i < l.length ∧ (l.getD i SynthVoice.initial).isActive = true ∧
      (l.getD i SynthVoice.initial).midiNote = midiNote := by
  intro l
  induction l with
  | nil => intro i h; simp [VoiceManager.findVoicePlayingNoteGo] at h
  | cons v rest ih =>
    intro i h
    rw [VoiceManager.findVoicePlayingNoteGo] at h
    split at h
    · rename_i hc
      cases h
      simp only [Bool.and_eq_true, decide_eq_true_eq] at hc
      exact ⟨by simp, by simpa [List.getD_cons_zero] using hc.1,
        by simpa [List.getD_cons_zero] using hc.2⟩
    · rcases Option.map_eq_some'.1 h with ⟨k, hk, rfl⟩
      obtain ⟨hlt, hact, hnote⟩ := ih k hk
      exact ⟨by simp; omega, by simpa [List.getD_cons_succ] using hact,
        by simpa [List.getD_cons_succ] using hnote⟩

/-- A failed `findVoicePlayingNote` scan means no voice is active on the
requested note. -/
theorem findVoicePlayingNoteGo_none (midiNote : Nat) :
    ∀ l, VoiceManager.findVoicePlayingNoteGo midiNote l = none →
      ∀ v ∈ l, ¬(v.isActive = true ∧ v.midiNote = midiNote) := by
  intro l
  induction l with
  | nil => intro _ v hv; cases hv
  | cons w rest ih =>
    intro h v hv
    rw [VoiceManager.findVoicePlayingNoteGo] at h
    split at h
    · cases h
    · rename_i hc
      rcases List.mem_cons.1 hv with rfl | hmem
      · intro hcontra
        apply hc
        simp [hcontra.1, hcontra.2]
      · exact ih (Option.map_eq_none'.1 h) v hmem

/-- The free-voice scan returns an index within the pool. -/
theorem findBestFreeVoiceGo_bound :
    ∀ (l : List Voice) (i0 : Nat) (acc : Option Nat × Nat) (j : Nat),
      (VoiceManager.findBestFreeVoiceGo l i0 acc).1 = some j →
      acc.1 = some j ∨ (i0 ≤ j ∧ j < i0 + l.length) := by
  intro l
  induction l with
  | nil => intro i0 acc j h; exact Or.inl h
  | cons v rest ih =>
    intro i0 acc j h
    obtain ⟨best, lowq⟩ := acc
    rw [VoiceManager.findBestFreeVoiceGo] at h
    rcases ih (i0 + 1) _ j h with h1 | h2
    · split at h1
      · cases h1
        right
        simp only [List.length_cons]
        omega
      · exact Or.inl h1
    · right
      simp only [List.length_cons]
      omega

/-- The release-candidate scan returns an index within the pool. -/
theorem findBestReleaseCandidateGo_bound :
    ∀ (l : List Voice) (i0 : Nat) (acc : Option Nat × Nat × Nat) (j : Nat),
      (VoiceManager.findBestReleaseCandidateGo l i0 acc).1 = some j →
      acc.1 = some j ∨ (i0 ≤ j ∧ j < i0 + l.length) := by
  intro l
  induction l with
  | nil => intro i0 acc j h; exact Or.inl h
  | cons v rest ih =>
    intro i0 acc j h
    obtain ⟨best, lowq, highc⟩ := acc
    rw [VoiceManager.findBestReleaseCandidateGo] at h
    rcases ih (i0 + 1) _ j h with h1 | h2
    · split at h1
      · split at h1
        · cases h1
          right
          simp only [List.length_cons]
          omega
        · exact Or.inl h1
      · exact Or.inl h1
    · right
      simp only [List.length_cons]
      omega

/-- The playing-candidate scan returns an index within the pool. -/
theorem findBestPlayingCandidateGo_bound :
    ∀ (l : List Voice) (i0 : Nat) (acc : Option Nat × Nat × ℚ) (j : Nat),
      (VoiceManager.findBestPlayingCandidateGo l i0 acc).1 = some j →
      acc.1 = some j ∨ (i0 ≤ j ∧ j < i0 + l.length) := by
  intro l
  induction l with
  | nil => intro i0 acc j h; exact Or.inl h
  | cons v rest ih =>
    intro i0 acc j h
    obtain ⟨best, lowq, highp⟩ := acc
    rw [VoiceManager.findBestPlayingCandidateGo] at h
    rcases ih (i0 + 1) _ j h with h1 | h2
    · split at h1
      · split at h1
        · cases h1
          right
          simp only [List.length_cons]
          omega
        · exact Or.inl h1
      · exact Or.inl h1
    · right
      simp only [List.length_cons]
      omega

-- ======================== assignTopPriority lemmas =========================

/-- The `maxQueueExceptGo` accumulator only grows, and dominates the
queue of every scanned voice whose absolute index differs from `i`. -/
theorem maxQueueExceptGo_ge :
    ∀ (l : List Voice) (i n m : Nat),
      m ≤ VoiceManager.maxQueueExceptGo i l n m ∧
      ∀ k, k < l.length → n + k ≠ i →
        (l.getD k SynthVoice.initial).queue ≤ VoiceManager.maxQueueExceptGo i l n m := by
  intro l
  induction l with
  | nil =>
    intro i n m
    exact ⟨Nat.le_refl m, fun k hk _ => absurd hk (by simp)⟩
  | cons v rest ih =>
    intro i n m
    rw [VoiceManager.maxQueueExceptGo]
    obtain ⟨ih1, ih2⟩ := ih i (n + 1)
      (if (decide (n ≠ i) && decide (v.queue > m)) = true then v.queue else m)
    have hmm' : m ≤ if (decide (n ≠ i) && decide (v.queue > m)) = true then v.queue else m := by
      split
      · rename_i hc
        simp only [Bool.and_eq_true, decide_eq_true_eq] at hc
        omega
      · exact Nat.le_refl m
    refine ⟨Nat.le_trans hmm' ih1, ?_⟩
    intro k hk hki
    cases k with
    | zero =>
      simp only [List.getD_cons_zero]
      have hvm' : v.queue ≤
          if (decide (n ≠ i) && decide (v.queue > m)) = true then v.queue else m := by
        split
        · exact Nat.le_refl _
        · rename_i hc
          simp only [Bool.and_eq_true, decide_eq_true_eq, not_and, not_lt] at hc
          exact hc (by omega)
      exact Nat.le_trans hvm' ih1
    | succ k' =>
      simp only [List.getD_cons_succ]
      exact ih2 k' (by simpa using hk) (by omega)

/-- After `assignTopPriority`, the promoted voice's queue is at least
every voice's queue (strictly greater than the others' when the previous
maximum was below 254; equal to 254 otherwise, which still dominates
because every reachable queue is at most 254). -/
theorem assignTopPriority_top (vs : List Voice) (i : Nat) (hi : i < vs.length)
    (hq : ∀ v ∈ vs, v.queue ≤ 254) :
    ∀ j, j < vs.length →
      ((VoiceManager.assignTopPriority vs i).getD j SynthVoice.initial).queue ≤
      ((VoiceManager.assignTopPriority vs i).getD i SynthVoice.initial).queue := by
  intro j hj
  unfold VoiceManager.assignTopPriority
  have hgi := getD_set_self vs i
    { (vs.getD i SynthVoice.initial) with
        queue := if VoiceManager.maxQueueExceptGo i vs 0 0 < 254 then
          VoiceManager.maxQueueExceptGo i vs 0 0 + 1 else 254 } hi
  rw [hgi]
  by_cases hji : j = i
  · subst hji
    rw [hgi]
  · rw [getD_set_ne _ _ _ _ hji]
    have h1 : (vs.getD j SynthVoice.initial).queue ≤ VoiceManager.maxQueueExceptGo i vs 0 0 :=
      (maxQueueExceptGo_ge vs i 0 0).2 j hj (by omega)
    have h2 : (vs.getD j SynthVoice.initial).queue ≤ 254 := hq _ (getD_mem _ _ hj)
    dsimp only
    split <;> omega

/-- `assignTopPriority` only rewrites one queue field: lengths, notes and
states are untouched. -/
theorem assignTopPriority_length (vs : List Voice) (i : Nat) :
    (VoiceManager.assignTopPriority vs i).length = vs.length := by
  unfold VoiceManager.assignTopPriority
  exact List.length_set vs i _

theorem assignTopPriority_midiNote (vs : List Voice) (i j : Nat) :
    ((VoiceManager.assignTopPriority vs i).getD j SynthVoice.initial).midiNote =
      (vs.getD j SynthVoice.initial).midiNote := by
  unfold VoiceManager.assignTopPriority
  by_cases hji : j = i
  · subst hji
    by_cases hi : j < vs.length
    · rw [getD_set_self vs j _ hi]
    · rw [List.getD_eq_default _ _ (by simpa using Nat.le_of_not_lt hi),
        List.getD_eq_default _ _ (Nat.le_of_not_lt hi)]
  · rw [getD_set_ne _ _ _ _ hji]

theorem assignTopPriority_isActive (vs : List Voice) (i j : Nat) :
    ((VoiceManager.assignTopPriority vs i).getD j SynthVoice.initial).isActive =
      (vs.getD j SynthVoice.initial).isActive := by
  unfold VoiceManager.assignTopPriority
  by_cases hji : j = i
  · subst hji
    by_cases hi : j < vs.length
    · rw [getD_set_self vs j _ hi]
      rfl
    · rw [List.getD_eq_default _ _ (by simpa using Nat.le_of_not_lt hi),
        List.getD_eq_default _ _ (Nat.le_of_not_lt hi)]
  · rw [getD_set_ne _ _ _ _ hji]

-- ======================== C4: chosen-voice priority =========================

/-- The index of the voice a `startVoice` call operates on, following the
same four-step dispatch as the source (restart, free, release stealing,
playing stealing). -/
def VoiceManager.allocTarget (voices : List Voice) (midiNote : Nat) : Option Nat :=
  match VoiceManager.findVoicePlayingNote voices midiNote with
  | some i => some i
  | none =>
    match VoiceManager.findBestFreeVoice voices with
    | some i => some i
    | none =>
      match VoiceManager.findBestReleaseCandidate voices with
      | some i => some i
      | none => VoiceManager.findBestPlayingCandidate voices

/-- C4 (counterexample): on a 2-voice pool, after note-ons for 60 and 62,
a restart of note 60 picks the voice already playing it (index 1) and
leaves it with queue 0 — strictly below the other voice's queue 2 — so
the chosen voice does not hold the highest rank. -/
theorem C4_restart_rank_counterexample :
    VoiceManager.findVoicePlayingNote
      (VMState.run testLib 2 [MidiOp.noteOn 60 100, MidiOp.noteOn 62 100]).voices 60 =
      some 1 ∧
    ((VMState.run testLib 2
        [MidiOp.noteOn 60 100, MidiOp.noteOn 62 100, MidiOp.noteOn 60 80]).voices.getD 1
      SynthVoice.initial).queue = 0 ∧
    ((VMState.run testLib 2
        [MidiOp.noteOn 60 100, MidiOp.noteOn 62 100, MidiOp.noteOn 60 80]).voices.getD 0
      SynthVoice.initial).queue = 2 := by
  refine ⟨?_, ?_, ?_⟩ <;> decide

/-- Shared argument for the three non-restart branches of `startVoice`. -/
theorem startVoice_assign_top (lib : SampleLibrary) (midiNote velocity : Nat)
    (s : VMState) (hq : ∀ v ∈ s.voices, v.queue ≤ 254) (i : Nat)
    (hib : i < s.voices.length) :
    ∀ j, j < s.voices.length →
      ((VoiceManager.assignTopPriority
          (s.voices.set i (SynthVoice.start lib midiNote velocity
            (s.voices.getD i SynthVoice.initial))) i).getD j SynthVoice.initial).queue ≤
      ((VoiceManager.assignTopPriority
          (s.voices.set i (SynthVoice.start lib midiNote velocity
            (s.voices.getD i SynthVoice.initial))) i).getD i SynthVoice.initial).queue := by
  intro j hj
  have hq' : ∀ v ∈ s.voices.set i (SynthVoice.start lib midiNote velocity
      (s.voices.getD i SynthVoice.initial)), v.queue ≤ 254 := by
    intro v hv
    rcases List.mem_or_eq_of_mem_set hv with h1 | h2
    · exact hq v h1
    · rw [h2, SynthVoice.start_queue]
      omega
  exact assignTopPriority_top _ i (by rw [List.length_set]; exact hib) hq' j
    (by rw [List.length_set]; exact hj)

/-- C4 (amended): a non-restart `noteOn` (free allocation, release
stealing, or playing stealing) leaves the chosen voice with a queue value
at least as large as every voice's in the pool; a restart instead resets
the chosen voice's queue to 0 (because `start` begins with `reset()`),
despite the source comment claiming the priority is preserved. -/
theorem C4_chosen_voice_priority (lib : SampleLibrary) (s : VMState)
    (hq : ∀ v ∈ s.voices, v.queue ≤ 254) (midiNote velocity : Nat) :
    (∀ i, VoiceManager.findVoicePlayingNote s.voices midiNote = some i →
      ((VoiceManager.startVoice lib midiNote velocity s).voices.getD i
        SynthVoice.initial).queue = 0) ∧
    (VoiceManager.findVoicePlayingNote s.voices midiNote = none →
      ∀ i, VoiceManager.allocTarget s.voices midiNote = some i →
        ∀ j, j < s.voices.length →
          ((VoiceManager.startVoice lib midiNote velocity s).voices.getD j
            SynthVoice.initial).queue ≤
          ((VoiceManager.startVoice lib midiNote velocity s).voices.getD i
            SynthVoice.initial).queue) := by
  constructor
  · intro i hfind
    have hspec := findVoicePlayingNoteGo_spec midiNote s.voices i hfind
    unfold VoiceManager.startVoice
    rw [hfind]
    rw [getD_set_self _ _ _ hspec.1, SynthVoice.start_queue]
  · intro hnone i htarget j hj
    unfold VoiceManager.allocTarget at htarget
    rw [hnone] at htarget
    unfold VoiceManager.startVoice
    rw [hnone]
    cases hff : VoiceManager.findBestFreeVoice s.voices with
    | some k =>
      rw [hff] at htarget
      cases htarget
      have hib : i < s.voices.length := by
        rcases findBestFreeVoiceGo_bound s.voices 0 (none, 255) i hff with h1 | h2
        · simp at h1
        · omega
      exact startVoice_assign_top lib midiNote velocity s hq i hib j hj
    | none =>
      rw [hff] at htarget
      cases hfr : VoiceManager.findBestReleaseCandidate s.voices with
      | some k =>
        rw [hfr] at htarget
        cases htarget
        have hib : i < s.voices.length := by
          rcases findBestReleaseCandidateGo_bound s.voices 0 (none, 255, 0) i hfr with h1 | h2
          · simp at h1
          · omega
        exact startVoice_assign_top lib midiNote velocity s hq i hib j hj
      | none =>
        rw [hfr] at htarget
        cases hfp : VoiceManager.findBestPlayingCandidate s.voices with
        | some k =>
          rw [hfp] at htarget
          cases htarget
          have hib : i < s.voices.length := by
            rcases findBestPlayingCandidateGo_bound s.voices 0 (none, 255, 0) i hfp with h1 | h2
            · simp at h1
            · omega
          exact startVoice_assign_top lib midiNote velocity s hq i hib j hj
        | none =>
          rw [hfp] at htarget
          cases htarget

/-- Witness for C4 (amended): a free allocation on a fresh 2-voice pool
promotes the chosen voice (index 1) above every other voice. -/
theorem C4_chosen_voice_priority_witness :
    (∀ i, VoiceManager.findVoicePlayingNote (VoiceManager.init 2).voices 60 = some i →
      ((VoiceManager.startVoice testLib 60 100 (VoiceManager.init 2)).voices.getD i
        SynthVoice.initial).queue = 0) ∧
    (VoiceManager.findVoicePlayingNote (VoiceManager.init 2).voices 60 = none →
      ∀ i, VoiceManager.allocTarget (VoiceManager.init 2).voices 60 = some i →
        ∀ j, j < (VoiceManager.init 2).voices.length →
          ((VoiceManager.startVoice testLib 60 100 (VoiceManager.init 2)).voices.getD j
            SynthVoice.initial).queue ≤
          ((VoiceManager.startVoice testLib 60 100 (VoiceManager.init 2)).voices.getD i
            SynthVoice.initial).queue) :=
  C4_chosen_voice_priority testLib (VoiceManager.init 2)
    (by decide) 60 100

-- ======================== C5: one voice per note =========================

/-- At most one voice of the pool is active on any given note. -/
def NoteUnique (vs : List Voice) : Prop :=
  ∀ i j, i < vs.length → j < vs.length → i ≠ j →
    (vs.getD i SynthVoice.initial).isActive = true →
    (vs.getD j SynthVoice.initial).isActive = true →
    (vs.getD i SynthVoice.initial).midiNote ≠ (vs.getD j SynthVoice.initial).midiNote

theorem init_noteUnique (numVoices : Int) :
    NoteUnique (VoiceManager.init numVoices).voices := by
  intro i j hi hj hij hai haj
  exfalso
  have hrep : (VoiceManager.init numVoices).voices.getD i SynthVoice.initial =
      SynthVoice.initial := by
    rw [List.getD_eq_getElem _ _ hi]
    exact List.eq_of_mem_replicate (List.getElem_mem hi)
  rw [hrep] at hai
  exact absurd hai (by decide)

theorem stopVoice_noteUnique (midiNote : Nat) (s : VMState)
    (h : NoteUnique s.voices) :
    NoteUnique (VoiceManager.stopVoice midiNote s).voices := by
  unfold VoiceManager.stopVoice
  cases hk : VoiceManager.findPlayingIdx midiNote s.voices with
  | none => exact h
  | some k =>
    intro i j hi hj hij hai haj
    rw [List.length_set] at hi hj
    have key : ∀ a, a < s.voices.length →
        ((s.voices.set k (SynthVoice.startRelease
            (s.voices.getD k SynthVoice.initial))).getD a SynthVoice.initial).isActive =
          (s.voices.getD a SynthVoice.initial).isActive ∧
        ((s.voices.set k (SynthVoice.startRelease
            (s.voices.getD k SynthVoice.initial))).getD a SynthVoice.initial).midiNote =
          (s.voices.getD a SynthVoice.initial).midiNote := by
      intro a ha
      by_cases hak : a = k
      · subst hak
        rw [getD_set_self _ _ _ ha]
        exact ⟨SynthVoice.startRelease_isActive _, SynthVoice.startRelease_midiNote _⟩
      · rw [getD_set_ne _ _ _ _ hak]
        exact ⟨rfl, rfl⟩
    obtain ⟨ka1, ka2⟩ := key i hi
    obtain ⟨kb1, kb2⟩ := key j hj
    rw [ka1] at hai
    rw [kb1] at haj
    rw [ka2, kb2]
    exact h i j hi hj hij hai haj

/-- A non-restart allocation (free, release-steal or playing-steal)
preserves note uniqueness: no voice was active on the requested note, and
only the chosen voice changes. -/
theorem set_start_assign_noteUnique (lib : SampleLibrary) (midiNote velocity : Nat)
    (s : VMState) (h : NoteUnique s.voices)
    (hnone : ∀ v ∈ s.voices, ¬(v.isActive = true ∧ v.midiNote = midiNote)) (k : Nat) :
    NoteUnique (VoiceManager.assignTopPriority
      (s.voices.set k (SynthVoice.start lib midiNote velocity
        (s.voices.getD k SynthVoice.initial))) k) := by
  intro i j hi hj hij hai haj
  rw [assignTopPriority_length, List.length_set] at hi hj
  rw [assignTopPriority_isActive] at hai haj
  simp only [assignTopPriority_midiNote]
  by_cases hik : i = k
  · subst hik
    rw [getD_set_self _ _ _ hi, SynthVoice.start_midiNote]
    rw [getD_set_ne _ _ _ _ (Ne.symm hij)] at haj
    rw [getD_set_ne _ _ _ _ (Ne.symm hij)]
    intro hcontra
    exact hnone _ (getD_mem _ _ hj) ⟨haj, hcontra.symm⟩
  · by_cases hjk : j = k
    · subst hjk
      rw [getD_set_self _ _ _ hj, SynthVoice.start_midiNote]
      rw [getD_set_ne _ _ _ _ hik] at hai
      rw [getD_set_ne _ _ _ _ hik]
      intro hcontra
      exact hnone _ (getD_mem _ _ hi) ⟨hai, hcontra⟩
    · rw [getD_set_ne _ _ _ _ hik] at hai
      rw [getD_set_ne _ _ _ _ hjk] at haj
      rw [getD_set_ne _ _ _ _ hik, getD_set_ne _ _ _ _ hjk]
      exact h i j hi hj hij hai haj

theorem startVoice_noteUnique (lib : SampleLibrary) (midiNote velocity : Nat)
    (s : VMState) (h : NoteUnique s.voices) :
    NoteUnique (VoiceManager.startVoice lib midiNote velocity s).voices := by
  unfold VoiceManager.startVoice
  cases hfind : VoiceManager.findVoicePlayingNote s.voices midiNote with
  | some k =>
    have hspec := findVoicePlayingNoteGo_spec midiNote s.voices k hfind
    intro i j hi hj hij hai haj
    rw [List.length_set] at hi hj
    by_cases hik : i = k
    · subst hik
      rw [getD_set_self _ _ _ hspec.1, SynthVoice.start_midiNote]
      rw [getD_set_ne _ _ _ _ (Ne.symm hij)] at haj
      rw [getD_set_ne _ _ _ _ (Ne.symm hij)]
      intro hcontra
      exact (h i j hspec.1 hj hij hspec.2.1 haj) (by rw [hspec.2.2, hcontra])
    · by_cases hjk : j = k
      · subst hjk
        rw [getD_set_self _ _ _ hspec.1, SynthVoice.start_midiNote]
        rw [getD_set_ne _ _ _ _ hik] at hai
        rw [getD_set_ne _ _ _ _ hik]
        intro hcontra
        exact (h i j hi hspec.1 hij hai hspec.2.1) (by rw [hspec.2.2, ← hcontra])
      · rw [getD_set_ne _ _ _ _ hik] at hai
        rw [getD_set_ne _ _ _ _ hjk] at haj
        rw [getD_set_ne _ _ _ _ hik, getD_set_ne _ _ _ _ hjk]
        exact h i j hi hj hij hai haj
  | none =>
    have hnone := findVoicePlayingNoteGo_none midiNote s.voices hfind
    cases hff : VoiceManager.findBestFreeVoice s.voices with
    | some k => exact set_start_assign_noteUnique lib midiNote velocity s h hnone k
    | none =>
      cases hfr : VoiceManager.findBestReleaseCandidate s.voices with
      | some k => exact set_start_assign_noteUnique lib midiNote velocity s h hnone k
      | none =>
        cases hfp : VoiceManager.findBestPlayingCandidate s.voices with
        | some k => exact set_start_assign_noteUnique lib midiNote velocity s h hnone k
        | none => exact h

theorem run_noteUnique (lib : SampleLibrary) (numVoices : Int) (ops : List MidiOp) :
    NoteUnique (VMState.run lib numVoices ops).voices := by
  suffices hstep : ∀ (l : List MidiOp) (s : VMState), NoteUnique s.voices →
      NoteUnique (l.foldl (VMState.step lib) s).voices by
    exact hstep ops _ (init_noteUnique numVoices)
  intro l
  induction l with
  | nil => intro s h; exact h
  | cons op rest ih =>
    intro s h
    refine ih _ ?_
    cases op with
    | noteOn midiNote velocity => exact startVoice_noteUnique lib midiNote velocity s h
    | noteOff midiNote => exact stopVoice_noteUnique midiNote s h

/-- C5: a `noteOn` for a note some voice is already Playing or in Release
for resolves to the restart branch: exactly that voice is re-`start`ed
with the new velocity and no other voice changes (so no second voice is
ever allocated for the note); and after any sequence of note-ons and
note-offs from a fresh pool, at most one voice is active per note. -/
theorem C5_one_voice_per_note (lib : SampleLibrary) (midiNote velocity : Nat) :
    (∀ s : VMState, ∀ i,
      VoiceManager.findVoicePlayingNote s.voices midiNote = some i →
        (VoiceManager.startVoice lib midiNote velocity s).voices =
          s.voices.set i (SynthVoice.start lib midiNote velocity
            (s.voices.getD i SynthVoice.initial)) ∧
        (SynthVoice.start lib midiNote velocity
          (s.voices.getD i SynthVoice.initial)).velocity = velocity) ∧
    (∀ numVoices : Int, ∀ ops : List MidiOp,
      NoteUnique (VMState.run lib numVoices ops).voices) := by
  constructor
  · intro s i hfind
    constructor
    · unfold VoiceManager.startVoice
      rw [hfind]
    · exact SynthVoice.start_velocity lib midiNote velocity _
  · intro numVoices ops
    exact run_noteUnique lib numVoices ops

/-- Witness for C5: after one note-on on a fresh 2-voice pool, a second
note-on for the same note restarts the same voice (index 1). -/
theorem C5_one_voice_per_note_witness :
    (VoiceManager.startVoice testLib 60 80
        (VMState.run testLib 2 [MidiOp.noteOn 60 100])).voices =
      (VMState.run testLib 2 [MidiOp.noteOn 60 100]).voices.set 1
        (SynthVoice.start testLib 60 80
          ((VMState.run testLib 2 [MidiOp.noteOn 60 100]).voices.getD 1
            SynthVoice.initial)) ∧
    (SynthVoice.start testLib 60 80
      ((VMState.run testLib 2 [MidiOp.noteOn 60 100]).voices.getD 1
        SynthVoice.initial)).velocity = 80 :=
  (C5_one_voice_per_note testLib 60 80).1
    (VMState.run testLib 2 [MidiOp.noteOn 60 100]) 1 (by decide)

/-- Witness for C9 at a concrete buffer of length 100. -/
theorem C9_resample_roundtrip_length_witness :
    ((SampleLoader.resampleIfNeeded 44100
        (SampleLoader.resampleIfNeeded 48000 (fun _ => 0) 100 44100).1
        (SampleLoader.resampleIfNeeded 48000 (fun _ => 0) 100 44100).2
        48000).2 ≤ 100) ∧
    (100 ≤ (SampleLoader.resampleIfNeeded 44100
        (SampleLoader.resampleIfNeeded 48000 (fun _ => 0) 100 44100).1
        (SampleLoader.resampleIfNeeded 48000 (fun _ => 0) 100 44100).2
        48000).2 + 1) :=
  C9_resample_roundtrip_length (fun _ => 0) 100
